import Mathlib

/-!
Verification of the Landroid Cloud integration (custom_components/landroid_cloud)
against its natural-language specification.  The Python source is shallowly
embedded: the configuration encoder, the status classifier, the schedule
merge, the capability-to-service resolver, the refresh error boundary and the
per-refresh attribute extraction become executable Lean functions, and the
spec's claims become theorems about them.
-/

namespace LandroidCloud

/-! ## Config-field encoder (`LandroidCloudMowerBase.async_config`)

`async_config` receives a dict that may hold `raindelay`, `timeextension`,
`multizone_distances` and `multizone_probabilities` entries.  The two array
fields arrive as strings and are parsed into integer lists before validation;
we embed the function from the parsed lists on.  A raised
`HomeAssistantError` is embedded as `Except.error`; `Except.ok none` means the
function returned without sending anything (empty `tmpdata`), and
`Except.ok (some payload)` means `device.send` was reached with `payload`.
-/

/-- Input of `async_config`: which keys are present in the service-call data,
with the two array fields already parsed to integer lists (`sections`). -/
structure ConfigData where
  raindelay : Option Int
  timeextension : Option Int
  multizone_distances : Option (List Int)
  multizone_probabilities : Option (List Int)

/-- The `tmpdata` dict built by `async_config`: keys `rd`, `sc.p`, `mz`, `mzv`. -/
structure ConfigPayload where
  rd : Option Int
  sc_p : Option Int
  mz : Option (List Int)
  mzv : Option (List Int)
deriving DecidableEq, Repr

/-- The `mzv` expansion loop of `async_config`: a zero sum encodes ten zero
entries, otherwise each zone index `idx` is appended `int(int(val) / 10)`
times (Python `int(... / 10)` truncates toward zero, as does `Int.tdiv`;
`range` of a negative count is empty, hence `Int.toNat`). -/
def encode_mzv (sections : List Int) : List Int :=
  if sections.sum = 0 then
    List.replicate 10 0
  else
    sections.enum.flatMap fun p => List.replicate ((Int.tdiv p.2 10).toNat) (Int.ofNat p.1)

/-- The `multizone_distances` branch of `async_config`. -/
def config_mz_step (tmp : ConfigPayload) (data : ConfigData) :
    Except String ConfigPayload :=
  match data.multizone_distances with
  | none => .ok tmp
  | some sections =>
    if sections.length ≠ 4 then
      .error "Incorrect format for multizone distances array"
    else
      .ok ⟨tmp.rd, tmp.sc_p, some sections, tmp.mzv⟩

/-- The `multizone_probabilities` branch of `async_config`. -/
def config_mzv_step (tmp : ConfigPayload) (data : ConfigData) :
    Except String ConfigPayload :=
  match data.multizone_probabilities with
  | none => .ok tmp
  | some sections =>
    if sections.length ≠ 4 then
      .error "Incorrect format for multizone probabilities array"
    else if ¬(sections.sum = 100 ∨ sections.sum = 0) then
      .error "Sum of zone probabilities array MUST be 100 or 0 (disabled)"
    else
      .ok ⟨tmp.rd, tmp.sc_p, tmp.mz, some (encode_mzv sections)⟩

/-- Truthiness of `tmpdata`: some key was written. -/
def ConfigPayload.nonempty (t : ConfigPayload) : Bool :=
  t.rd.isSome || t.sc_p.isSome || t.mz.isSome || t.mzv.isSome

/-- Embedding of `LandroidCloudMowerBase.async_config`: build `tmpdata` field by field in
source order, raising on malformed zone arrays; send the payload only if
`tmpdata` is non-empty. -/
def async_config (data : ConfigData) : Except String (Option ConfigPayload) :=
  let tmp : ConfigPayload := ⟨data.raindelay, data.timeextension, none, none⟩
  match config_mz_step tmp data with
  | .error e => .error e
  | .ok tmp =>
    match config_mzv_step tmp data with
    | .error e => .error e
    | .ok tmp => .ok (if tmp.nonempty then some tmp else none)

/-! ## Device status classifier (`LandroidCloudBaseEntity.data_update`, state part)

`data_update` derives the entity state from `master.online`, `master.error.id`
(nullable) and `master.status.id`.  The state-name constants and the
`STATE_MAP` contents live in `const.py`, which is not part of the embedded
sources; the classifier below keeps the exact branch structure of
`device_base.py` and takes the status map as a parameter. -/

/-- Modelled from the spec: state-name constant `STATE_INITIALIZING` from
`const.py` (not under `src/`); the five state names are distinct strings. -/
def STATE_INITIALIZING : String := "initializing"

/-- Modelled from the spec: state-name constant `STATE_OFFLINE` from
`const.py` (not under `src/`). -/
def STATE_OFFLINE : String := "offline"

/-- Modelled from the spec: state-name constant `STATE_ERROR`
(imported from the vacuum platform, not under `src/`). -/
def STATE_ERROR : String := "error"

/-- Modelled from the spec: state-name constant `STATE_RAINDELAY` from
`const.py` (not under `src/`). -/
def STATE_RAINDELAY : String := "rain_delay"

/-- The state derivation of `data_update`, branch for branch:
`state = STATE_INITIALIZING`; offline when not online and the error id is
`-1` or `0`; elif the error id is non-null and positive, error unless it is
`5` (rain delay); else look the status id up in `STATE_MAP`, falling back to
`STATE_INITIALIZING` on `KeyError`.  `errorId.getD 0` reads the error id,
guarded by `errorId ≠ none` exactly where Python checks `is not None`. -/
def data_update_state (online : Bool) (errorId : Option Int) (statusId : Int)
    (stateMap : Int → Option String) : String :=
  if online = false ∧ (errorId = some (-1) ∨ errorId = some 0) then
    STATE_OFFLINE
  else if errorId ≠ none ∧ 0 < errorId.getD 0 then
    if 0 < errorId.getD 0 ∧ errorId.getD 0 ≠ 5 then
      STATE_ERROR
    else if errorId.getD 0 = 5 then
      STATE_RAINDELAY
    else
      STATE_INITIALIZING
  else
    match stateMap statusId with
    | some s => s
    | none => STATE_INITIALIZING

/-! ## Schedule merge/encode (`LandroidCloudMowerBase.async_set_schedule`)

`async_set_schedule` walks the seven weekdays of `SCHEDULE_TO_DAY` in order:
a day whose start key is present in the service data is re-encoded from the
update (`parseday`), raising `HomeAssistantError` when its end key is
missing; a day absent from the data is carried through from
`device.schedules[schedule_type]` as `[start, duration, int(boundary)]`.
The other schedule kind is passed through (`pass_thru`) unchanged.
`SCHEDULE_TO_DAY`, `SCHEDULE_TYPE_MAP`, `pass_thru` and `parseday` live in
`const.py` / `utils/schedules.py`, which are not under `src/`; they are
modelled from the spec.  `Except.error` embeds the raised error: the
function aborts before `device.send`, so no payload at all is transmitted. -/

/-- One stored schedule entry: per weekday a (start-time, duration,
boundary-cut-flag) triple; times/durations in minutes. -/
structure ScheduleEntry where
  start : Nat
  duration : Nat
  boundary : Bool

/-- A day present in a schedule update: its start key is in the data, its end
key may be missing, plus the boundary flag. -/
structure DayUpdate where
  start : Nat
  dayEnd : Option Nat
  boundary : Bool

/-- The two parallel schedules of a device, each covering all seven days. -/
structure Schedules where
  primary : Fin 7 → ScheduleEntry
  secondary : Fin 7 → ScheduleEntry

/-- Schedule kind selector of the service call (`data["type"]`). -/
inductive ScheduleKind
  | primary
  | secondary
deriving DecidableEq

/-- The schedule of a given kind. -/
def Schedules.get (s : Schedules) : ScheduleKind → (Fin 7 → ScheduleEntry)
  | .primary => s.primary
  | .secondary => s.secondary

/-- The other schedule kind. -/
def ScheduleKind.other : ScheduleKind → ScheduleKind
  | .primary => .secondary
  | .secondary => .primary

/-- An encoded weekday entry `[start, duration, int(boundary)]`. -/
def EncodedDay := Nat × Nat × Nat
deriving DecidableEq

/-- Carrying an existing entry through: `[start, duration, int(boundary)]`. -/
def encodeEntry (e : ScheduleEntry) : EncodedDay :=
  (e.start, e.duration, if e.boundary then 1 else 0)

/-- Modelled from the spec: `pass_thru` (`utils/schedules.py`, not under
`src/`) encodes an existing schedule for transmission unmodified, day by day. -/
def pass_thru (sched : Fin 7 → ScheduleEntry) : List EncodedDay :=
  (List.finRange 7).map fun d => encodeEntry (sched d)

/-- Modelled from the spec: `parseday` (`utils/schedules.py`, not under
`src/`) encodes an updated day from its start and end times as a
(start, duration, boundary) triple. -/
def parseday (u : DayUpdate) (e : Nat) : EncodedDay :=
  (u.start, e - u.start, if u.boundary then 1 else 0)

/-- Modelled from the spec: the weekday names of `SCHEDULE_TO_DAY`
(`const.py`, not under `src/`), used in the error message. -/
def dayName (d : Fin 7) : String :=
  ["sunday", "monday", "tuesday", "wednesday", "thursday", "friday",
    "saturday"].getD d.val ""

/-- An `Except`-valued map that stops at the first error, mirroring a Python
loop that appends per day and raises in the middle. -/
def mapExcept (f : α → Except ε β) : List α → Except ε (List β)
  | [] => .ok []
  | x :: xs =>
    match f x with
    | .error e => .error e
    | .ok y =>
      match mapExcept f xs with
      | .error e => .error e
      | .ok ys => .ok (y :: ys)

/-- The loop body of `async_set_schedule` for one weekday: update the day if
its start key is present (raising when the end key is missing), otherwise
carry the existing entry of the selected kind through. -/
def merge_day (kind : ScheduleKind) (upd : Fin 7 → Option DayUpdate)
    (scheds : Schedules) (d : Fin 7) : Except String EncodedDay :=
  match upd d with
  | some u =>
    match u.dayEnd with
    | none => .error ("No end time specified for " ++ dayName d)
    | some e => .ok (parseday u e)
  | none => .ok (encodeEntry (scheds.get kind d))

/-- The complete encoded schedule object sent to the device: key `d` holds
the primary schedule, key `dd` the secondary (`SCHEDULE_TYPE_MAP`). -/
structure ScheduleSet where
  d : List EncodedDay
  dd : List EncodedDay

/-- The list the output holds for a given kind. -/
def ScheduleSet.ofKind (s : ScheduleSet) : ScheduleKind → List EncodedDay
  | .primary => s.d
  | .secondary => s.dd

/-- Embedding of `LandroidCloudMowerBase.async_set_schedule`: merge the update for the
selected kind over the seven days, pass the other kind through, and send the
resulting object; a missing end time raises before anything is sent. -/
def async_set_schedule (kind : ScheduleKind) (upd : Fin 7 → Option DayUpdate)
    (scheds : Schedules) : Except String ScheduleSet :=
  match mapExcept (merge_day kind upd scheds) (List.finRange 7) with
  | .error e => .error e
  | .ok merged =>
    match kind with
    | .primary => .ok ⟨merged, pass_thru scheds.secondary⟩
    | .secondary => .ok ⟨pass_thru scheds.primary, merged⟩

/-! ## Capability-to-service resolver (`LandroidCloudBaseEntity.register_services`)

`register_services` returns early when `self.api.features == 0`; otherwise
each feature bit of `LandroidFeatureSupport` independently gates one entry of
`self.api.services`.  The bit constants and service-name strings live in
`const.py`, which is not under `src/`; they are modelled from the spec as
nine independent flags with nine distinct operation names.  The resolver is
embedded as the list of operation names registered, in source order. -/

/-- Modelled from the spec: `LandroidFeatureSupport` bit constants from
`const.py` (not under `src/`) — nine independent boolean flags, one bit each. -/
def FEATURE_EDGECUT : Nat := 1
/-- Modelled from the spec: the `LOCK` feature bit. -/
def FEATURE_LOCK : Nat := 2
/-- Modelled from the spec: the `PARTYMODE` feature bit. -/
def FEATURE_PARTYMODE : Nat := 4
/-- Modelled from the spec: the `SETZONE` feature bit. -/
def FEATURE_SETZONE : Nat := 8
/-- Modelled from the spec: the `RESTART` feature bit. -/
def FEATURE_RESTART : Nat := 16
/-- Modelled from the spec: the `CONFIG` feature bit. -/
def FEATURE_CONFIG : Nat := 32
/-- Modelled from the spec: the `OTS` feature bit. -/
def FEATURE_OTS : Nat := 64
/-- Modelled from the spec: the `SCHEDULES` feature bit. -/
def FEATURE_SCHEDULES : Nat := 128
/-- Modelled from the spec: the `TORQUE` feature bit. -/
def FEATURE_TORQUE : Nat := 256

/-- Modelled from the spec: the service-name constants from `const.py`
(not under `src/`), nine distinct operation names. -/
def SERVICE_EDGECUT : String := "edgecut"
/-- Modelled from the spec: service name for the lock toggle. -/
def SERVICE_LOCK : String := "lock"
/-- Modelled from the spec: service name for the party-mode toggle. -/
def SERVICE_PARTYMODE : String := "partymode"
/-- Modelled from the spec: service name for zone selection. -/
def SERVICE_SETZONE : String := "setzone"
/-- Modelled from the spec: service name for the restart command. -/
def SERVICE_RESTART : String := "restart"
/-- Modelled from the spec: service name for device configuration. -/
def SERVICE_CONFIG : String := "config"
/-- Modelled from the spec: service name for one-time schedules. -/
def SERVICE_OTS : String := "ots"
/-- Modelled from the spec: service name for recurring schedules. -/
def SERVICE_SCHEDULE : String := "schedule"
/-- Modelled from the spec: service name for wheel torque. -/
def SERVICE_TORQUE : String := "torque"

/-- Embedding of `LandroidCloudBaseEntity.register_services`: nothing is registered when
the feature flags are `0`; otherwise each `features & BIT` test registers
one operation name, in source order. -/
def register_services (features : Nat) : List String :=
  if features = 0 then []
  else
    (if features &&& FEATURE_EDGECUT ≠ 0 then [SERVICE_EDGECUT] else []) ++
    (if features &&& FEATURE_LOCK ≠ 0 then [SERVICE_LOCK] else []) ++
    (if features &&& FEATURE_PARTYMODE ≠ 0 then [SERVICE_PARTYMODE] else []) ++
    (if features &&& FEATURE_SETZONE ≠ 0 then [SERVICE_SETZONE] else []) ++
    (if features &&& FEATURE_RESTART ≠ 0 then [SERVICE_RESTART] else []) ++
    (if features &&& FEATURE_CONFIG ≠ 0 then [SERVICE_CONFIG] else []) ++
    (if features &&& FEATURE_OTS ≠ 0 then [SERVICE_OTS] else []) ++
    (if features &&& FEATURE_SCHEDULES ≠ 0 then [SERVICE_SCHEDULE] else []) ++
    (if features &&& FEATURE_TORQUE ≠ 0 then [SERVICE_TORQUE] else [])

/-! ## Refresh error boundary (`LandroidAPI.async_refresh`)

`async_refresh` wraps `self.device.update` in a `try` with one `except`
clause per `pyworxcloud` exception class; every clause logs and
`return False`.  On success the function falls off the end, returning
`None`.  The vendor call's outcome is embedded as `Except ApiError Unit`;
the refresh returns `Except.ok` when no exception escapes, carrying the
Python return value (`none` for `None`, `some false` for `False`). -/

/-- The `pyworxcloud.exceptions` transport errors caught by `async_refresh`,
one constructor per `except` clause. -/
inductive ApiError
  | requestError
  | authorizationError
  | forbiddenError
  | notFoundError
  | tooManyRequestsError
  | internalServerError
  | serviceUnavailableError
  | apiException (msg : String)
deriving DecidableEq

/-- Embedding of `LandroidAPI.async_refresh`: each exception class gets its own handler
that logs and returns `False`; a successful update returns `None`. -/
def async_refresh (updateResult : Except ApiError Unit) :
    Except ApiError (Option Bool) :=
  match updateResult with
  | .ok _ => .ok none
  | .error .requestError => .ok (some false)
  | .error .authorizationError => .ok (some false)
  | .error .forbiddenError => .ok (some false)
  | .error .notFoundError => .ok (some false)
  | .error .tooManyRequestsError => .ok (some false)
  | .error .internalServerError => .ok (some false)
  | .error .serviceUnavailableError => .ok (some false)
  | .error (.apiException _) => .ok (some false)

/-! ## Vendor capability-mismatch handling (edge cut, party mode, OTS)

`async_edgecut` catches `NoOneTimeScheduleError` around `device.ots`;
`async_toggle_partymode` catches `NoPartymodeError` around
`device.toggle_partymode`; `async_ots` calls `device.ots` with no handler at
all.  The vendor call's outcome is the argument; the returned value is what
the coroutine does with it (`Except.error` = the exception escapes to the
caller). -/

/-- Vendor capability-mismatch exceptions from `pyworxcloud`. -/
inductive VendorError
  | noOneTimeScheduleError
  | noPartymodeError
deriving DecidableEq

/-- Embedding of `LandroidCloudMowerBase.async_edgecut`: `device.ots(True, 0)` inside
`try`, catching `NoOneTimeScheduleError` (logged, no re-raise). -/
def async_edgecut (r : Except VendorError Unit) : Except VendorError Unit :=
  match r with
  | .error .noOneTimeScheduleError => .ok ()
  | other => other

/-- Embedding of `LandroidCloudMowerBase.async_toggle_partymode`: the toggle inside
`try`, catching `NoPartymodeError` (logged, no re-raise). -/
def async_toggle_partymode (r : Except VendorError Unit) :
    Except VendorError Unit :=
  match r with
  | .error .noPartymodeError => .ok ()
  | other => other

/-- Embedding of `LandroidCloudMowerBase.async_ots`: `device.ots(...)` with no
`try`/`except` around it — whatever the vendor call raises propagates. -/
def async_ots (r : Except VendorError Unit) : Except VendorError Unit :=
  r

/-! ## Per-refresh attribute extraction (`LandroidCloudBaseEntity.data_update`)

`data_update` iterates `ATTR_MAP["default"]["state"]` and copies
`getattr(master, prop)` to `data[attr]` when the attribute exists and is not
`None`.  The device handle is embedded as a function from vendor field name
to `Option (Option α)`: `none` = attribute absent (`hasattr` false),
`some none` = present but `None`, `some (some v)` = value `v`.  After the
capabilities attribute is populated and `wheel_torque` possibly dropped,
the code indexes `data["gps_location"]` unconditionally; a missing key is a
Python `KeyError`, embedded as `Except.error`. -/

/-- The table `ATTR_MAP["default"]["state"]` from `attribute_map.py`: the vendor-name
to display-name renaming table, in source order. -/
def ATTR_MAP_state : List (String × String) :=
  [("id", "cloud_id"),
   ("blades", "blades"),
   ("battery", "battery"),
   ("work_time", "work_time"),
   ("distance", "distance"),
   ("rssi", "rssi"),
   ("orientation", "orientation"),
   ("gps", "gps_location"),
   ("rainsensor", "rainsensor"),
   ("firmware_version", "firmware_version"),
   ("partymode_enabled", "partymode_enabled"),
   ("locked", "locked"),
   ("online", "online"),
   ("accessories", "accessories"),
   ("zone", "zone"),
   ("schedule_mower_active", "schedule_enabled"),
   ("schedule_variation", "time_extension"),
   ("schedules", "schedules"),
   ("error", "error"),
   ("torque", "wheel_torque"),
   ("battery_charging", "charging"),
   ("updated", "last_update")]

/-- The renaming/omission loop of `data_update` over a renaming table:
`data[attr] = getattr(master, prop)` only when the attribute exists and is
not `None`. -/
def extract_attrs (tbl : List (String × String))
    (master : String → Option (Option α)) : List (String × α) :=
  tbl.filterMap fun pa =>
    match master pa.1 with
    | some (some v) => some (pa.2, v)
    | _ => none

/-- The attribute part of `data_update` after the renaming loop: append the
`capabilities` entry, drop `wheel_torque` when the device lacks the torque
capability, then index `data["gps_location"]` and drop it when latitude or
longitude is missing.  `capVal` stands for the capability list written to
`data["capabilities"]`; `hasLatLon` is the membership test on the gps value. -/
def data_update_attrs (master : String → Option (Option α)) (capVal : α)
    (torqueCap : Bool) (hasLatLon : α → Bool) :
    Except String (List (String × α)) :=
  let data := extract_attrs ATTR_MAP_state master
  let data := data ++ [("capabilities", capVal)]
  let data :=
    if torqueCap = false ∧ "wheel_torque" ∈ data.map Prod.fst then
      data.eraseP fun p => p.1 == "wheel_torque"
    else data
  match data.lookup "gps_location" with
  | none => .error "gps_location"
  | some v =>
    .ok (if hasLatLon v then data
         else data.eraseP fun p => p.1 == "gps_location")

/-! ## Helper lemmas -/

/-- Membership in a conditional singleton. -/
lemma mem_ite_singleton {c : Prop} [Decidable c] {x s : String} :
    s ∈ (if c then [x] else []) ↔ c ∧ s = x := by
  split <;> simp_all

/-- A conditional singleton is a sublist of the singleton. -/
lemma ite_singleton_sublist {c : Prop} [Decidable c] (x : String) :
    List.Sublist (if c then [x] else []) [x] := by
  split
  · exact List.Sublist.refl _
  · exact List.nil_sublist _

/-- Pointwise success: if every element maps to `ok`, the whole
list maps to `ok` of the pointwise results. -/
lemma mapExcept_ok_of_all {α β ε : Type} {f : α → Except ε β} {g : α → β} :
    ∀ l : List α, (∀ x ∈ l, f x = .ok (g x)) → mapExcept f l = .ok (l.map g) := by
  intro l h
  induction l with
  | nil => rfl
  | cons x xs ih =>
    have hx := h x (List.mem_cons_self x xs)
    have hxs := ih fun y hy => h y (List.mem_cons_of_mem x hy)
    simp [mapExcept, hx, hxs]

/-- Propagation of failure: `mapExcept` fails when some element fails. -/
lemma mapExcept_error_of_mem {α β ε : Type} {f : α → Except ε β} {x : α} {e : ε} :
    ∀ l : List α, x ∈ l → f x = .error e → ∃ e2, mapExcept f l = .error e2 := by
  intro l
  induction l with
  | nil => intro h; cases h
  | cons y ys ih =>
    intro hmem hx
    rcases List.mem_cons.mp hmem with hxy | hmem2
    · subst hxy
      exact ⟨e, by simp [mapExcept, hx]⟩
    · cases hy : f y with
      | error e3 => exact ⟨e3, by simp [mapExcept, hy]⟩
      | ok v =>
        obtain ⟨e2, h2⟩ := ih hmem2 hx
        exact ⟨e2, by simp [mapExcept, hy, h2]⟩

/-! ## C1: zone-probability expansion -/

/-- C1 counterexample: the code expands `[25, 25, 25, 25]` to the EIGHT
slots `[0, 0, 1, 1, 2, 2, 3, 3]` — not to a fixed 10-slot allocation, and
zone indices 2 and 3 get 2 slots each, not 3. -/
theorem c1_counterexample_25_gives_8_slots :
    encode_mzv [25, 25, 25, 25] = [0, 0, 1, 1, 2, 2, 3, 3] ∧
    (encode_mzv [25, 25, 25, 25]).length = 8 ∧
    (encode_mzv [25, 25, 25, 25]).length ≠ 10 ∧
    (encode_mzv [25, 25, 25, 25]).count 2 = 2 ∧
    (encode_mzv [25, 25, 25, 25]).count 3 = 2 := by
  decide

/-- C1 (amended): for a 4-integer probability array summing to 100, the
encoder appends each zone index `⌊pᵢ/10⌋` times (Python truncating
division), so the allocation has `Σ ⌊pᵢ/10⌋` slots — 10 slots only when
every percentage is a multiple of 10. -/
theorem c1_amended_mzv_integer_division (a b c d : Int)
    (h : a + b + c + d = 100) :
    encode_mzv [a, b, c, d] =
      List.replicate (Int.tdiv a 10).toNat 0 ++
      List.replicate (Int.tdiv b 10).toNat 1 ++
      List.replicate (Int.tdiv c 10).toNat 2 ++
      List.replicate (Int.tdiv d 10).toNat 3 ∧
    (encode_mzv [a, b, c, d]).length =
      (Int.tdiv a 10).toNat + (Int.tdiv b 10).toNat +
      (Int.tdiv c 10).toNat + (Int.tdiv d 10).toNat := by
  have hs : ¬([a, b, c, d].sum = 0) := by
    simp only [List.sum_cons, List.sum_nil]
    omega
  constructor
  · unfold encode_mzv
    rw [if_neg hs]
    simp [List.enum, List.enumFrom, List.flatMap, List.append_assoc]
  · unfold encode_mzv
    rw [if_neg hs]
    simp [List.enum, List.enumFrom, List.flatMap]
    omega

/-- C1 witness: the amended statement evaluated at `[25, 25, 25, 25]`. -/
theorem c1_amended_witness :
    (25 : Int) + 25 + 25 + 25 = 100 ∧
    (encode_mzv [25, 25, 25, 25] =
       List.replicate (Int.tdiv 25 10).toNat 0 ++
       List.replicate (Int.tdiv 25 10).toNat 1 ++
       List.replicate (Int.tdiv 25 10).toNat 2 ++
       List.replicate (Int.tdiv 25 10).toNat 3 ∧
     (encode_mzv [25, 25, 25, 25]).length =
       (Int.tdiv 25 10).toNat + (Int.tdiv 25 10).toNat +
       (Int.tdiv 25 10).toNat + (Int.tdiv 25 10).toNat) :=
  ⟨by decide, c1_amended_mzv_integer_division 25 25 25 25 (by decide)⟩

/-! ## C7: refresh error boundary -/

/-- C7: every transport error raised by `device.update` is caught inside
`async_refresh` and turned into the return value `False`; the refresh never
lets an exception escape (`.isOk` on every input). -/
theorem c7_refresh_catches_all_transport_errors :
    (∀ e : ApiError, async_refresh (.error e) = .ok (some false)) ∧
    (∀ r : Except ApiError Unit, (async_refresh r).isOk = true) := by
  constructor
  · intro e
    cases e <;> rfl
  · intro r
    cases r with
    | ok v => rfl
    | error e => cases e <;> rfl

/-! ## C8: vendor capability-mismatch handling -/

/-- C8 counterexample: `async_ots` has no handler, so the vendor
`NoOneTimeScheduleError` raised by `device.ots` propagates to the caller
instead of being caught as a no-op. -/
theorem c8_counterexample_ots_error_propagates :
    async_ots (.error .noOneTimeScheduleError) =
      .error VendorError.noOneTimeScheduleError ∧
    ¬(async_ots (.error .noOneTimeScheduleError) = .ok ()) := by
  constructor
  · rfl
  · intro h
    exact Except.noConfusion h

/-- C8 (amended): the capability-mismatch exceptions are caught and the
operation completes as a no-op for edge-cut (`NoOneTimeScheduleError`) and
party mode (`NoPartymodeError`); `async_ots` however propagates the
exception to its caller. -/
theorem c8_amended_edgecut_partymode_caught :
    async_edgecut (.error .noOneTimeScheduleError) = .ok () ∧
    async_toggle_partymode (.error .noPartymodeError) = .ok () ∧
    async_edgecut (.ok ()) = .ok () ∧
    async_toggle_partymode (.ok ()) = .ok () ∧
    async_ots (.error .noOneTimeScheduleError) =
      .error VendorError.noOneTimeScheduleError :=
  ⟨rfl, rfl, rfl, rfl, rfl⟩

/-! ## C2: status classifier -/

/-- C2: the status classifier is total — every (online, nullable error id,
status id) triple yields exactly one of offline / error / rain-delay /
mapped status / initializing — and follows the precedence: offline when not
online with error id −1 or 0; error for any positive error id other than 5;
rain delay for error id 5; otherwise the mapped status, falling back to
initializing when the status id is absent from the map. -/
theorem c2_status_classifier_total_and_precedence (online : Bool)
    (errorId : Option Int) (statusId : Int) (stateMap : Int → Option String) :
    (data_update_state online errorId statusId stateMap = STATE_OFFLINE ∨
     data_update_state online errorId statusId stateMap = STATE_ERROR ∨
     data_update_state online errorId statusId stateMap = STATE_RAINDELAY ∨
     data_update_state online errorId statusId stateMap = STATE_INITIALIZING ∨
     ∃ s, stateMap statusId = some s ∧
       data_update_state online errorId statusId stateMap = s) ∧
    (online = false ∧ (errorId = some (-1) ∨ errorId = some 0) →
      data_update_state online errorId statusId stateMap = STATE_OFFLINE) ∧
    (∀ e : Int, errorId = some e → 0 < e → e ≠ 5 →
      data_update_state online errorId statusId stateMap = STATE_ERROR) ∧
    (errorId = some 5 →
      data_update_state online errorId statusId stateMap = STATE_RAINDELAY) ∧
    (∀ s, ¬(online = false ∧ (errorId = some (-1) ∨ errorId = some 0)) →
      (∀ e : Int, errorId = some e → e ≤ 0) →
      stateMap statusId = some s →
      data_update_state online errorId statusId stateMap = s) ∧
    (¬(online = false ∧ (errorId = some (-1) ∨ errorId = some 0)) →
      (∀ e : Int, errorId = some e → e ≤ 0) →
      stateMap statusId = none →
      data_update_state online errorId statusId stateMap = STATE_INITIALIZING) := by
  refine ⟨?_, ?_, ?_, ?_, ?_, ?_⟩
  · unfold data_update_state
    split
    · exact Or.inl rfl
    · split
      · split
        · exact Or.inr (Or.inl rfl)
        · split
          · exact Or.inr (Or.inr (Or.inl rfl))
          · exact Or.inr (Or.inr (Or.inr (Or.inl rfl)))
      · cases h : stateMap statusId with
        | none => simp [h]
        | some s => exact Or.inr (Or.inr (Or.inr (Or.inr ⟨s, rfl, rfl⟩)))
  · intro h
    unfold data_update_state
    rw [if_pos h]
  · intro e he h0 h5
    subst he
    unfold data_update_state
    rw [if_neg, if_pos, if_pos]
    · simp [Option.getD]
      omega
    · simp [Option.getD]
      omega
    · rintro ⟨-, h | h⟩ <;> simp_all
  · intro he
    subst he
    unfold data_update_state
    rw [if_neg, if_pos, if_neg, if_pos]
    · rfl
    · simp [Option.getD]
    · simp [Option.getD]
    · rintro ⟨-, h | h⟩ <;> simp_all
  · intro s hoff herr hmap
    unfold data_update_state
    rw [if_neg hoff, if_neg]
    · simp [hmap]
    · rintro ⟨hne, hpos⟩
      cases he : errorId with
      | none => exact hne he
      | some e =>
        have := herr e he
        rw [he] at hpos
        simp [Option.getD] at hpos
        omega
  · intro hoff herr hmap
    unfold data_update_state
    rw [if_neg hoff, if_neg]
    · simp [hmap]
    · rintro ⟨hne, hpos⟩
      cases he : errorId with
      | none => exact hne he
      | some e =>
        have := herr e he
        rw [he] at hpos
        simp [Option.getD] at hpos
        omega

/-- C2 witness: not online with error id 0 and an unmapped status id
classifies as offline. -/
theorem c2_witness_offline :
    data_update_state false (some 0) 3 (fun _ => none) = STATE_OFFLINE :=
  (c2_status_classifier_total_and_precedence false (some 0) 3
    (fun _ => none)).2.1 ⟨rfl, Or.inr rfl⟩

/-! ## C3 / C4: schedule merge -/

/-- C3: when every updated day carries an end time, the merge succeeds; the
produced schedule holds, for each weekday, the re-encoded update when the
day is present and the carried-over existing entry of the selected kind when
it is absent, and the other kind is passed through unmodified. -/
theorem c3_schedule_merge_overwrites_and_carries (kind : ScheduleKind)
    (upd : Fin 7 → Option DayUpdate) (scheds : Schedules)
    (h : ∀ i u, upd i = some u → u.dayEnd ≠ none) :
    ∃ s : ScheduleSet, async_set_schedule kind upd scheds = .ok s ∧
      s.ofKind kind.other = pass_thru (scheds.get kind.other) ∧
      ∀ i : Fin 7,
        (s.ofKind kind).get? i.val =
          some (match upd i with
                | some u => parseday u (u.dayEnd.getD 0)
                | none => encodeEntry (scheds.get kind i)) := by
  have hmap :
      mapExcept (merge_day kind upd scheds) (List.finRange 7) =
        .ok ((List.finRange 7).map fun d =>
          match upd d with
          | some u => parseday u (u.dayEnd.getD 0)
          | none => encodeEntry (scheds.get kind d)) := by
    apply mapExcept_ok_of_all
    intro d _
    unfold merge_day
    cases hu : upd d with
    | none => rfl
    | some u =>
      cases he : u.dayEnd with
      | none => exact absurd he (h d u hu)
      | some e => simp [he]
  have hfin : List.finRange 7 = [0, 1, 2, 3, 4, 5, 6] := by decide
  cases kind with
  | primary =>
    refine ⟨⟨(List.finRange 7).map fun d =>
        match upd d with
        | some u => parseday u (u.dayEnd.getD 0)
        | none => encodeEntry (scheds.get ScheduleKind.primary d),
      pass_thru scheds.secondary⟩, ?_, rfl, ?_⟩
    · unfold async_set_schedule
      rw [hmap]
    · intro i
      rw [hfin]
      fin_cases i <;> rfl
  | secondary =>
    refine ⟨⟨pass_thru scheds.primary,
      (List.finRange 7).map fun d =>
        match upd d with
        | some u => parseday u (u.dayEnd.getD 0)
        | none => encodeEntry (scheds.get ScheduleKind.secondary d)⟩, ?_, rfl, ?_⟩
    · unfold async_set_schedule
      rw [hmap]
    · intro i
      rw [hfin]
      fin_cases i <;> rfl

/-- A concrete partial update: Sunday gets 08:00–09:00 with boundary cut,
all other days are left untouched. -/
def updWitness : Fin 7 → Option DayUpdate :=
  fun i => if i.val = 0 then some ⟨480, some 540, true⟩ else none

/-- A concrete partial update in which Tuesday has a start but no end time. -/
def updNoEnd : Fin 7 → Option DayUpdate :=
  fun i => if i.val = 2 then some ⟨600, none, false⟩ else none

/-- A concrete existing schedule pair. -/
def schedsWitness : Schedules :=
  ⟨fun _ => ⟨60, 30, false⟩, fun _ => ⟨120, 45, true⟩⟩

/-- C3 witness: the merge theorem evaluated on a one-day primary update. -/
theorem c3_witness :
    ∃ s : ScheduleSet,
      async_set_schedule .primary updWitness schedsWitness = .ok s ∧
      s.ofKind ScheduleKind.primary.other =
        pass_thru (schedsWitness.get ScheduleKind.primary.other) ∧
      ∀ i : Fin 7,
        (s.ofKind ScheduleKind.primary).get? i.val =
          some (match updWitness i with
                | some u => parseday u (u.dayEnd.getD 0)
                | none => encodeEntry (schedsWitness.get .primary i)) :=
  c3_schedule_merge_overwrites_and_carries .primary updWitness schedsWitness
    (by
      intro i u hu
      fin_cases i <;> simp_all [updWitness]
      subst hu
      simp)

/-- C4: a day present in the update with no end time makes the operation
raise synchronously: the result is an error, so no schedule payload — not
even a partial one — reaches `device.send`. -/
theorem c4_missing_end_aborts (kind : ScheduleKind)
    (upd : Fin 7 → Option DayUpdate) (scheds : Schedules) (i : Fin 7)
    (u : DayUpdate) (hu : upd i = some u) (he : u.dayEnd = none) :
    ∃ msg, async_set_schedule kind upd scheds = .error msg := by
  have hd : merge_day kind upd scheds i =
      .error ("No end time specified for " ++ dayName i) := by
    unfold merge_day
    rw [hu]
    simp [he]
  obtain ⟨e2, h2⟩ :=
    mapExcept_error_of_mem (List.finRange 7) (List.mem_finRange i) hd
  refine ⟨e2, ?_⟩
  unfold async_set_schedule
  rw [h2]

/-- C4 witness: a secondary update whose Tuesday entry lacks an end time is
rejected. -/
theorem c4_witness :
    ∃ msg, async_set_schedule .secondary updNoEnd schedsWitness = .error msg :=
  c4_missing_end_aborts .secondary updNoEnd schedsWitness 2 ⟨600, none, false⟩
    (by simp [updNoEnd]) rfl

/-! ## C5: capability-to-service resolver -/

/-- C5: the registered operation set is a pure function of the feature
bitmask — membership of each of the nine operation names is decided exactly
by its own feature bit, independent of the others, and no name is
registered twice.  (Idempotence is immediate: `register_services` is a
function of the bitmask alone.) -/
theorem c5_register_services_pure_bitmask_function (f : Nat) :
    (register_services f).Nodup ∧
    ∀ s : String, s ∈ register_services f ↔
      ((f &&& FEATURE_EDGECUT ≠ 0 ∧ s = SERVICE_EDGECUT) ∨
       (f &&& FEATURE_LOCK ≠ 0 ∧ s = SERVICE_LOCK) ∨
       (f &&& FEATURE_PARTYMODE ≠ 0 ∧ s = SERVICE_PARTYMODE) ∨
       (f &&& FEATURE_SETZONE ≠ 0 ∧ s = SERVICE_SETZONE) ∨
       (f &&& FEATURE_RESTART ≠ 0 ∧ s = SERVICE_RESTART) ∨
       (f &&& FEATURE_CONFIG ≠ 0 ∧ s = SERVICE_CONFIG) ∨
       (f &&& FEATURE_OTS ≠ 0 ∧ s = SERVICE_OTS) ∨
       (f &&& FEATURE_SCHEDULES ≠ 0 ∧ s = SERVICE_SCHEDULE) ∨
       (f &&& FEATURE_TORQUE ≠ 0 ∧ s = SERVICE_TORQUE)) := by
  by_cases hf : f = 0
  · subst hf
    constructor
    · simp [register_services]
    · intro s
      simp [register_services, Nat.zero_and]
  · constructor
    · unfold register_services
      rw [if_neg hf]
      have hsub :
          List.Sublist
            ((if f &&& FEATURE_EDGECUT ≠ 0 then [SERVICE_EDGECUT] else []) ++
             (if f &&& FEATURE_LOCK ≠ 0 then [SERVICE_LOCK] else []) ++
             (if f &&& FEATURE_PARTYMODE ≠ 0 then [SERVICE_PARTYMODE] else []) ++
             (if f &&& FEATURE_SETZONE ≠ 0 then [SERVICE_SETZONE] else []) ++
             (if f &&& FEATURE_RESTART ≠ 0 then [SERVICE_RESTART] else []) ++
             (if f &&& FEATURE_CONFIG ≠ 0 then [SERVICE_CONFIG] else []) ++
             (if f &&& FEATURE_OTS ≠ 0 then [SERVICE_OTS] else []) ++
             (if f &&& FEATURE_SCHEDULES ≠ 0 then [SERVICE_SCHEDULE] else []) ++
             (if f &&& FEATURE_TORQUE ≠ 0 then [SERVICE_TORQUE] else []))
            ([SERVICE_EDGECUT] ++ [SERVICE_LOCK] ++ [SERVICE_PARTYMODE] ++
             [SERVICE_SETZONE] ++ [SERVICE_RESTART] ++ [SERVICE_CONFIG] ++
             [SERVICE_OTS] ++ [SERVICE_SCHEDULE] ++ [SERVICE_TORQUE]) :=
        List.Sublist.append
          (List.Sublist.append
            (List.Sublist.append
              (List.Sublist.append
                (List.Sublist.append
                  (List.Sublist.append
                    (List.Sublist.append
                      (List.Sublist.append (ite_singleton_sublist _)
                        (ite_singleton_sublist _))
                      (ite_singleton_sublist _))
                    (ite_singleton_sublist _))
                  (ite_singleton_sublist _))
                (ite_singleton_sublist _))
              (ite_singleton_sublist _))
            (ite_singleton_sublist _))
          (ite_singleton_sublist _)
      exact List.Nodup.sublist hsub (by decide)
    · intro s
      unfold register_services
      rw [if_neg hf]
      simp only [List.mem_append, mem_ite_singleton, or_assoc]

/-- C5 witness: the characterization evaluated at the bitmask with the
edge-cut and OTS bits set. -/
theorem c5_witness :
    (register_services 65).Nodup ∧
    (SERVICE_OTS ∈ register_services 65 ↔
      ((65 &&& FEATURE_EDGECUT ≠ 0 ∧ SERVICE_OTS = SERVICE_EDGECUT) ∨
       (65 &&& FEATURE_LOCK ≠ 0 ∧ SERVICE_OTS = SERVICE_LOCK) ∨
       (65 &&& FEATURE_PARTYMODE ≠ 0 ∧ SERVICE_OTS = SERVICE_PARTYMODE) ∨
       (65 &&& FEATURE_SETZONE ≠ 0 ∧ SERVICE_OTS = SERVICE_SETZONE) ∨
       (65 &&& FEATURE_RESTART ≠ 0 ∧ SERVICE_OTS = SERVICE_RESTART) ∨
       (65 &&& FEATURE_CONFIG ≠ 0 ∧ SERVICE_OTS = SERVICE_CONFIG) ∨
       (65 &&& FEATURE_OTS ≠ 0 ∧ SERVICE_OTS = SERVICE_OTS) ∨
       (65 &&& FEATURE_SCHEDULES ≠ 0 ∧ SERVICE_OTS = SERVICE_SCHEDULE) ∨
       (65 &&& FEATURE_TORQUE ≠ 0 ∧ SERVICE_OTS = SERVICE_TORQUE))) :=
  ⟨(c5_register_services_pure_bitmask_function 65).1,
   (c5_register_services_pure_bitmask_function 65).2 SERVICE_OTS⟩

/-! ## C6: config validation -/

/-- C6: a distances array whose parsed length is not 4 raises the format
error; with the distances field well-formed (absent or of length 4), a
probabilities array of 4 integers summing to neither 100 nor 0 raises the
sum error — in both cases `async_config` returns the error, so nothing is
sent; a probability sum of 0 is accepted and encoded as ten zero entries. -/
theorem c6_config_rejects_bad_arrays :
    (∀ data : ConfigData, ∀ s : List Int,
      data.multizone_distances = some s → s.length ≠ 4 →
      async_config data = .error "Incorrect format for multizone distances array") ∧
    (∀ data : ConfigData, ∀ s : List Int,
      (data.multizone_distances = none ∨
        ∃ t, data.multizone_distances = some t ∧ t.length = 4) →
      data.multizone_probabilities = some s → s.length = 4 →
      s.sum ≠ 100 → s.sum ≠ 0 →
      async_config data =
        .error "Sum of zone probabilities array MUST be 100 or 0 (disabled)") ∧
    (∀ data : ConfigData, ∀ s : List Int,
      (data.multizone_distances = none ∨
        ∃ t, data.multizone_distances = some t ∧ t.length = 4) →
      data.multizone_probabilities = some s → s.length = 4 → s.sum = 0 →
      ∃ t : ConfigPayload, async_config data = .ok (some t) ∧
        t.mzv = some (List.replicate 10 0)) := by
  refine ⟨?_, ?_, ?_⟩
  · intro data s hd hl
    unfold async_config config_mz_step
    rw [hd]
    simp [hl]
  · intro data s hd hp hl h100 h0
    have hsum : ¬(s.sum = 100 ∨ s.sum = 0) := by
      rintro (h | h)
      · exact h100 h
      · exact h0 h
    unfold async_config config_mz_step config_mzv_step
    rcases hd with hd | ⟨t, hd, ht⟩
    · simp [hd, hp, hl, hsum]
    · simp [hd, hp, hl, hsum, ht]
  · intro data s hd hp hl hsum
    have hmzv : encode_mzv s = List.replicate 10 0 := by
      unfold encode_mzv
      rw [if_pos hsum]
    rcases hd with hd | ⟨t, hd, ht⟩
    · refine ⟨⟨data.raindelay, data.timeextension, none,
        some (List.replicate 10 0)⟩, ?_, rfl⟩
      simp [async_config, config_mz_step, config_mzv_step, hd, hp, hl, hsum,
        hmzv, ConfigPayload.nonempty]
    · refine ⟨⟨data.raindelay, data.timeextension, some t,
        some (List.replicate 10 0)⟩, ?_, rfl⟩
      simp [async_config, config_mz_step, config_mzv_step, hd, hp, hl, hsum,
        hmzv, ConfigPayload.nonempty, ht]

/-- C6 witness: a 3-entry distances array, a probabilities array summing to
37, and an all-zero probabilities array, each at a concrete input. -/
theorem c6_witness :
    async_config ⟨none, none, some [10, 20, 30], none⟩ =
      .error "Incorrect format for multizone distances array" ∧
    async_config ⟨none, none, none, some [10, 10, 10, 7]⟩ =
      .error "Sum of zone probabilities array MUST be 100 or 0 (disabled)" ∧
    ∃ t : ConfigPayload,
      async_config ⟨none, none, none, some [0, 0, 0, 0]⟩ = .ok (some t) ∧
      t.mzv = some (List.replicate 10 0) :=
  ⟨c6_config_rejects_bad_arrays.1 ⟨none, none, some [10, 20, 30], none⟩
     [10, 20, 30] rfl (by decide),
   c6_config_rejects_bad_arrays.2.1 ⟨none, none, none, some [10, 10, 10, 7]⟩
     [10, 10, 10, 7] (Or.inl rfl) rfl (by decide) (by decide) (by decide),
   c6_config_rejects_bad_arrays.2.2 ⟨none, none, none, some [0, 0, 0, 0]⟩
     [0, 0, 0, 0] (Or.inl rfl) rfl (by decide) (by decide)⟩

/-! ## C9 / C10: attribute extraction -/

/-- Any display key of the extraction arises from some table row whose
vendor attribute is present and non-null. -/
lemma extract_attrs_mem_keys {α : Type} {tbl : List (String × String)}
    {master : String → Option (Option α)} {a : String} :
    a ∈ (extract_attrs tbl master).map Prod.fst →
    ∃ p v, (p, a) ∈ tbl ∧ master p = some (some v) := by
  induction tbl with
  | nil => intro h; cases h
  | cons x xs ih =>
    intro h
    unfold extract_attrs at h
    rw [List.filterMap_cons] at h
    cases hx : master x.1 with
    | none =>
      rw [hx] at h
      obtain ⟨p, v, hm, hv⟩ := ih h
      exact ⟨p, v, List.mem_cons_of_mem x hm, hv⟩
    | some o =>
      cases o with
      | none =>
        rw [hx] at h
        obtain ⟨p, v, hm, hv⟩ := ih h
        exact ⟨p, v, List.mem_cons_of_mem x hm, hv⟩
      | some v0 =>
        rw [hx] at h
        rw [List.map_cons, List.mem_cons] at h
        rcases h with h | h
        · exact ⟨x.1, v0, by simp [h], hx⟩
        · obtain ⟨p, v, hm, hv⟩ := ih h
          exact ⟨p, v, List.mem_cons_of_mem x hm, hv⟩

/-- A table row whose vendor attribute holds a value lands in the
extraction under its display key. -/
lemma extract_attrs_mem_of {α : Type} {tbl : List (String × String)}
    {master : String → Option (Option α)} {p a : String} {v : α} :
    (p, a) ∈ tbl → master p = some (some v) →
    (a, v) ∈ extract_attrs tbl master := by
  intro hm hv
  induction tbl with
  | nil => cases hm
  | cons x xs ih =>
    unfold extract_attrs
    rw [List.filterMap_cons]
    rcases List.mem_cons.mp hm with hx | hm2
    · subst hx
      rw [hv]
      exact List.mem_cons_self _ _
    · cases hx : master x.1 with
      | none => exact ih hm2
      | some o =>
        cases o with
        | none => exact ih hm2
        | some v0 => exact List.mem_cons_of_mem _ (ih hm2)

/-- In a table with pairwise-distinct second components, a second component
determines its first component. -/
lemma fst_eq_of_snd_nodup {l : List (String × String)}
    (h : (l.map Prod.snd).Nodup) {p q a : String}
    (hp : (p, a) ∈ l) (hq : (q, a) ∈ l) : p = q := by
  induction l with
  | nil => cases hp
  | cons x xs ih =>
    rw [List.map_cons, List.nodup_cons] at h
    rcases List.mem_cons.mp hp with hp1 | hp2 <;>
      rcases List.mem_cons.mp hq with hq1 | hq2
    · rw [← hp1] at hq1
      have := congrArg Prod.fst hq1
      exact this.symm
    · exfalso
      apply h.1
      rw [← hp1]
      have hma : a ∈ List.map Prod.snd xs := List.mem_map_of_mem Prod.snd hq2
      exact hma
    · exfalso
      apply h.1
      rw [← hq1]
      have hma : a ∈ List.map Prod.snd xs := List.mem_map_of_mem Prod.snd hp2
      exact hma
    · exact ih h.2 hp2 hq2

/-- Lookup misses keys that are not in the association list. -/
lemma lookup_eq_none_of_not_mem {α : Type} {l : List (String × α)} {a : String}
    (h : a ∉ l.map Prod.fst) : l.lookup a = none := by
  induction l with
  | nil => rfl
  | cons x xs ih =>
    rw [List.map_cons, List.mem_cons] at h
    push_neg at h
    rw [List.lookup_cons]
    have hne : (a == x.1) = false := beq_eq_false_iff_ne.mpr h.1
    rw [hne]
    exact ih h.2

/-- The display names of `ATTR_MAP["default"]["state"]` are pairwise
distinct. -/
lemma attr_map_snd_nodup : ((ATTR_MAP_state).map Prod.snd).Nodup := by
  decide

/-- C9: the extraction renames vendor fields to display fields via the
table; a vendor field that is absent or `None` contributes no display key
at all, and a present non-null value appears under its display key. -/
theorem c9_attr_extraction_renames_and_omits {α : Type}
    (master : String → Option (Option α)) (p a : String)
    (hmem : (p, a) ∈ ATTR_MAP_state) :
    ((master p = none ∨ master p = some none) →
      a ∉ (extract_attrs ATTR_MAP_state master).map Prod.fst) ∧
    (∀ v, master p = some (some v) →
      (a, v) ∈ extract_attrs ATTR_MAP_state master) := by
  constructor
  · intro habs hmemk
    obtain ⟨q, v, hq, hv⟩ := extract_attrs_mem_keys hmemk
    have hpq : q = p := fst_eq_of_snd_nodup attr_map_snd_nodup hq hmem
    rw [hpq] at hv
    rcases habs with h | h <;> rw [h] at hv <;> simp at hv
  · intro v hv
    exact extract_attrs_mem_of hmem hv

/-- A device handle exposing only a battery value (gps absent). -/
def masterBatteryOnly : String → Option (Option Int) :=
  fun s => if s = "battery" then some (some 77) else none

/-- C9 witness: the extraction theorem at the `battery` row of the table,
with a handle that has a battery value and no `gps` attribute. -/
theorem c9_witness :
    (("battery", "battery") ∈ ATTR_MAP_state) ∧
    (((masterBatteryOnly "battery" = none ∨
        masterBatteryOnly "battery" = some none) →
      "battery" ∉ (extract_attrs ATTR_MAP_state masterBatteryOnly).map Prod.fst) ∧
    (∀ v, masterBatteryOnly "battery" = some (some v) →
      ("battery", v) ∈ extract_attrs ATTR_MAP_state masterBatteryOnly)) :=
  ⟨by decide,
   c9_attr_extraction_renames_and_omits masterBatteryOnly "battery" "battery"
     (by decide)⟩

/-- C10 (implicit claim): when the vendor `gps` field is absent or null, the
display key `gps_location` is omitted, and the unconditional
`data["gps_location"]` check afterwards raises a `KeyError` — the refresh
does not complete. -/
theorem c10_missing_gps_raises_keyerror {α : Type}
    (master : String → Option (Option α)) (capVal : α) (torqueCap : Bool)
    (hasLatLon : α → Bool)
    (hgps : master "gps" = none ∨ master "gps" = some none) :
    data_update_attrs master capVal torqueCap hasLatLon =
      .error "gps_location" := by
  have hnotmem :
      "gps_location" ∉ (extract_attrs ATTR_MAP_state master).map Prod.fst := by
    intro hmemk
    obtain ⟨q, v, hq, hv⟩ := extract_attrs_mem_keys hmemk
    have hpq : q = "gps" :=
      fst_eq_of_snd_nodup attr_map_snd_nodup hq (by decide)
    rw [hpq] at hv
    rcases hgps with h | h <;> rw [h] at hv <;> simp at hv
  have hnot1 :
      "gps_location" ∉
        ((extract_attrs ATTR_MAP_state master) ++
          [("capabilities", capVal)]).map Prod.fst := by
    rw [List.map_append, List.mem_append]
    rintro (h | h)
    · exact hnotmem h
    · simp at h
  have hnot2 :
      ∀ l : List (String × α), "gps_location" ∉ l.map Prod.fst →
        "gps_location" ∉ (List.eraseP (fun p => p.1 == "wheel_torque") l).map
          Prod.fst :=
    fun l hl hmem =>
      hl (List.map_subset Prod.fst (List.eraseP_sublist _).subset hmem)
  simp only [data_update_attrs]
  by_cases htq : torqueCap = false ∧
      "wheel_torque" ∈
        ((extract_attrs ATTR_MAP_state master) ++
          [("capabilities", capVal)]).map Prod.fst
  · rw [if_pos htq]
    rw [lookup_eq_none_of_not_mem (hnot2 _ hnot1)]
  · rw [if_neg htq]
    rw [lookup_eq_none_of_not_mem hnot1]

/-- A device handle with no attributes at all. -/
def masterEmpty : String → Option (Option Int) := fun _ => none

/-- C10 witness: a handle whose `gps` attribute is absent makes the
attribute pass fail with the `gps_location` lookup error. -/
theorem c10_witness :
    data_update_attrs masterEmpty 0 true (fun _ => true) =
      .error "gps_location" :=
  c10_missing_gps_raises_keyerror masterEmpty 0 true (fun _ => true)
    (Or.inl rfl)

end LandroidCloud
